import Mathlib

/-!
Verification of the MPPT Perturb-and-Observe controller (`mppt_po.py`).

The controller class `MPPT_PO` is embedded shallowly: real-valued
measurements become rationals, the mutable object becomes explicit state
passing, and `numpy.clip` becomes `clip` below.  The plotting and
real-time-simulation helpers of the source file perform no control logic
and are not modelled.
-/

namespace MPPT

/-- Model of `numpy.clip a lo hi`: values below `lo` are raised to `lo`,
values above `hi` are lowered to `hi` (the upper bound is applied last,
so `lo > hi` yields `hi`, exactly as numpy does). -/
def clip (a lo hi : ℚ) : ℚ := min (max a lo) hi

/-- The `history` dictionary of the controller: observed voltage, current
and power samples and the action chosen at each call. -/
structure History where
  v : List ℚ
  i : List ℚ
  p : List ℚ
  action : List String
  deriving Repr, DecidableEq

/-- The full state of an `MPPT_PO` object: the four configuration fields
stored by `__init__` and the mutable state variables. -/
structure MPPT_PO where
  step_size : ℚ
  max_voltage : ℚ
  min_voltage : ℚ
  sample_time : ℚ
  v_prev : ℚ
  p_prev : ℚ
  v_ref : ℚ
  history : History
  deriving Repr, DecidableEq

namespace MPPT_PO

/-- `MPPT_PO.__init__`: stores the four configuration values unchanged,
seeds `v_prev = 0`, `p_prev = 0` (sentinel) and `v_ref = min_voltage`,
and starts with an empty history.  The Python constructor contains no
validation and no `raise`. -/
def init (step_size max_voltage min_voltage sample_time : ℚ) : MPPT_PO :=
  { step_size := step_size
    max_voltage := max_voltage
    min_voltage := min_voltage
    sample_time := sample_time
    v_prev := 0
    p_prev := 0
    v_ref := min_voltage
    history := ⟨[], [], [], []⟩ }

/-- The Python constructor cannot fail; its `Except`-valued model always
returns `ok`.  (`__init__` has no `raise` statement and performs no
fallible operation.) -/
def initE (step_size max_voltage min_voltage sample_time : ℚ) :
    Except String MPPT_PO :=
  .ok (init step_size max_voltage min_voltage sample_time)

/-- `MPPT_PO.update(v_measured, i_measured)`: returns the new object state
together with the returned reference voltage. -/
def update (self : MPPT_PO) (v_measured i_measured : ℚ) : MPPT_PO × ℚ :=
  let p_measured := v_measured * i_measured
  let hist : History :=
    { v := self.history.v ++ [v_measured]
      i := self.history.i ++ [i_measured]
      p := self.history.p ++ [p_measured]
      action := self.history.action }
  if self.p_prev = 0 then
    -- first-sample branch
    let s := { self with
      v_prev := v_measured
      p_prev := p_measured
      history := { hist with action := hist.action ++ ["init"] } }
    (s, s.v_ref)
  else
    let delta_v := v_measured - self.v_prev
    let delta_p := p_measured - self.p_prev
    let step : ℚ × String :=
      if delta_p > 0 then
        if delta_v > 0 then (self.v_ref + self.step_size, "increase")
        else (self.v_ref - self.step_size, "decrease")
      else
        if delta_v > 0 then (self.v_ref - self.step_size, "decrease")
        else (self.v_ref + self.step_size, "increase")
    let new_ref := clip step.1 self.min_voltage self.max_voltage
    let s := { self with
      v_ref := new_ref
      v_prev := v_measured
      p_prev := p_measured
      history := { hist with action := hist.action ++ [step.2] } }
    (s, s.v_ref)

/-- The body of `update` contains no `raise` and no fallible operation
(arithmetic, comparisons, list appends and `np.clip` are all total for
finite numeric inputs), so its `Except`-valued model always returns
`ok` with the pure result. -/
def updateE (self : MPPT_PO) (v_measured i_measured : ℚ) :
    Except String (MPPT_PO × ℚ) :=
  .ok (self.update v_measured i_measured)

/-- Runs a sequence of `update` calls, collecting the returned reference
voltages in call order. -/
def runUpdates (self : MPPT_PO) : List (ℚ × ℚ) → MPPT_PO × List ℚ
  | [] => (self, [])
  | (v, i) :: rest =>
    let r := self.update v i
    let rs := r.1.runUpdates rest
    (rs.1, r.2 :: rs.2)

/-- A concrete reachable tracking-mode state: the state of
`MPPT_PO(step_size=0.5, max_voltage=45, min_voltage=10, sample_time=0.2)`
after the single call `update(10, 1)`. -/
def trackingState : MPPT_PO :=
  { step_size := 1/2
    max_voltage := 45
    min_voltage := 10
    sample_time := 1/5
    v_prev := 10
    p_prev := 10
    v_ref := 10
    history := ⟨[10], [1], [10], ["init"]⟩ }

/-- A concrete tracking-mode state whose reference sits exactly at the upper
voltage bound, with the last measured voltage equal to that bound. -/
def pinnedState : MPPT_PO :=
  { step_size := 1/2
    max_voltage := 45
    min_voltage := 10
    sample_time := 1/5
    v_prev := 45
    p_prev := 20
    v_ref := 45
    history := ⟨[], [], [], []⟩ }

end MPPT_PO

/-! ## Helper lemmas -/

theorem clip_le (a lo hi : ℚ) : clip a lo hi ≤ hi := min_le_right _ _

theorem le_clip (a lo hi : ℚ) (h : lo ≤ hi) : lo ≤ clip a lo hi :=
  le_min (le_max_right a lo) h

namespace MPPT_PO

theorem update_init_branch (s : MPPT_PO) (v i : ℚ) (h : s.p_prev = 0) :
    s.update v i =
      ({ s with
          v_prev := v
          p_prev := v * i
          history := ⟨s.history.v ++ [v], s.history.i ++ [i],
                      s.history.p ++ [v * i], s.history.action ++ ["init"]⟩ },
       s.v_ref) := by
  simp [update, h]

theorem update_increase (s : MPPT_PO) (v i : ℚ) (h : s.p_prev ≠ 0)
    (hcase : (0 < v * i - s.p_prev ∧ 0 < v - s.v_prev) ∨
      (v * i - s.p_prev ≤ 0 ∧ v - s.v_prev ≤ 0)) :
    s.update v i =
      ({ s with
          v_ref := clip (s.v_ref + s.step_size) s.min_voltage s.max_voltage
          v_prev := v
          p_prev := v * i
          history := ⟨s.history.v ++ [v], s.history.i ++ [i],
                      s.history.p ++ [v * i], s.history.action ++ ["increase"]⟩ },
       clip (s.v_ref + s.step_size) s.min_voltage s.max_voltage) := by
  rcases hcase with ⟨h1, h2⟩ | ⟨h1, h2⟩
  · simp [update, h, h1, h2]
  · simp [update, h, not_lt.mpr h1, not_lt.mpr h2]

theorem update_decrease (s : MPPT_PO) (v i : ℚ) (h : s.p_prev ≠ 0)
    (hcase : (0 < v * i - s.p_prev ∧ v - s.v_prev ≤ 0) ∨
      (v * i - s.p_prev ≤ 0 ∧ 0 < v - s.v_prev)) :
    s.update v i =
      ({ s with
          v_ref := clip (s.v_ref - s.step_size) s.min_voltage s.max_voltage
          v_prev := v
          p_prev := v * i
          history := ⟨s.history.v ++ [v], s.history.i ++ [i],
                      s.history.p ++ [v * i], s.history.action ++ ["decrease"]⟩ },
       clip (s.v_ref - s.step_size) s.min_voltage s.max_voltage) := by
  rcases hcase with ⟨h1, h2⟩ | ⟨h1, h2⟩
  · simp [update, h, h1, not_lt.mpr h2]
  · simp [update, h, not_lt.mpr h1, h2]

theorem update_snd (s : MPPT_PO) (v i : ℚ) :
    (s.update v i).2 = (s.update v i).1.v_ref := by
  simp only [update]
  split <;> rfl

theorem update_config (s : MPPT_PO) (v i : ℚ) :
    (s.update v i).1.step_size = s.step_size ∧
    (s.update v i).1.max_voltage = s.max_voltage ∧
    (s.update v i).1.min_voltage = s.min_voltage ∧
    (s.update v i).1.sample_time = s.sample_time := by
  simp only [update]
  split
  · simp
  · split <;> split <;> simp

theorem update_history (s : MPPT_PO) (v i : ℚ) :
    (s.update v i).1.history.v = s.history.v ++ [v] ∧
    (s.update v i).1.history.i = s.history.i ++ [i] ∧
    (s.update v i).1.history.p = s.history.p ++ [v * i] ∧
    ((s.update v i).1.history.action = s.history.action ++ ["init"] ∨
     (s.update v i).1.history.action = s.history.action ++ ["increase"] ∨
     (s.update v i).1.history.action = s.history.action ++ ["decrease"]) := by
  simp only [update]
  split
  · simp
  · split <;> split <;> simp

theorem update_vref_bounds (s : MPPT_PO) (v i : ℚ)
    (h1 : s.min_voltage ≤ s.v_ref) (h2 : s.v_ref ≤ s.max_voltage) :
    s.min_voltage ≤ (s.update v i).1.v_ref ∧
    (s.update v i).1.v_ref ≤ s.max_voltage := by
  by_cases h : s.p_prev = 0
  · rw [update_init_branch s v i h]
    exact ⟨h1, h2⟩
  · have hmm : s.min_voltage ≤ s.max_voltage := h1.trans h2
    by_cases hp : 0 < v * i - s.p_prev <;> by_cases hv : 0 < v - s.v_prev
    · rw [update_increase s v i h (Or.inl ⟨hp, hv⟩)]
      exact ⟨le_clip _ _ _ hmm, clip_le _ _ _⟩
    · rw [update_decrease s v i h (Or.inl ⟨hp, not_lt.mp hv⟩)]
      exact ⟨le_clip _ _ _ hmm, clip_le _ _ _⟩
    · rw [update_decrease s v i h (Or.inr ⟨not_lt.mp hp, hv⟩)]
      exact ⟨le_clip _ _ _ hmm, clip_le _ _ _⟩
    · rw [update_increase s v i h (Or.inr ⟨not_lt.mp hp, not_lt.mp hv⟩)]
      exact ⟨le_clip _ _ _ hmm, clip_le _ _ _⟩

theorem runUpdates_bounds (s : MPPT_PO) (inputs : List (ℚ × ℚ))
    (h1 : s.min_voltage ≤ s.v_ref) (h2 : s.v_ref ≤ s.max_voltage) :
    (s.min_voltage ≤ (s.runUpdates inputs).1.v_ref ∧
      (s.runUpdates inputs).1.v_ref ≤ s.max_voltage) ∧
    ∀ o ∈ (s.runUpdates inputs).2, s.min_voltage ≤ o ∧ o ≤ s.max_voltage := by
  induction inputs generalizing s with
  | nil => exact ⟨⟨h1, h2⟩, by simp [runUpdates]⟩
  | cons vi rest ih =>
    obtain ⟨v, i⟩ := vi
    obtain ⟨hb1, hb2⟩ := update_vref_bounds s v i h1 h2
    obtain ⟨-, hcmax, hcmin, -⟩ := update_config s v i
    have ihx := ih (s.update v i).1 (hcmin ▸ hb1) (hcmax ▸ hb2)
    rw [hcmin, hcmax] at ihx
    refine ⟨ihx.1, ?_⟩
    intro o ho
    simp only [runUpdates, List.mem_cons] at ho
    rcases ho with rfl | ho
    · rw [update_snd]
      exact ⟨hb1, hb2⟩
    · exact ihx.2 o ho

theorem runUpdates_history_len (s : MPPT_PO) (inputs : List (ℚ × ℚ)) :
    (s.runUpdates inputs).1.history.v.length = s.history.v.length + inputs.length ∧
    (s.runUpdates inputs).1.history.i.length = s.history.i.length + inputs.length ∧
    (s.runUpdates inputs).1.history.p.length = s.history.p.length + inputs.length ∧
    (s.runUpdates inputs).1.history.action.length =
      s.history.action.length + inputs.length := by
  induction inputs generalizing s with
  | nil => simp [runUpdates]
  | cons vi rest ih =>
    obtain ⟨v, i⟩ := vi
    obtain ⟨hv, hi, hp, ha⟩ := update_history s v i
    obtain ⟨ihv, ihi, ihp, iha⟩ := ih (s.update v i).1
    refine ⟨?_, ?_, ?_, ?_⟩
    · rw [runUpdates] at *
      rw [ihv, hv]
      simp
      omega
    · rw [runUpdates] at *
      rw [ihi, hi]
      simp
      omega
    · rw [runUpdates] at *
      rw [ihp, hp]
      simp
      omega
    · rw [runUpdates] at *
      rcases ha with ha | ha | ha <;>
        · rw [iha, ha]
          simp
          omega

end MPPT_PO

theorem clip_top (st lo hi : ℚ) (hl : lo ≤ hi) (hst : 0 < st) :
    clip (hi + st) lo hi = hi := by
  unfold clip
  rw [max_eq_left (by linarith), min_eq_right (by linarith)]

theorem clip_bot (st lo hi : ℚ) (hl : lo ≤ hi) (hst : 0 < st) :
    clip (lo - st) lo hi = lo := by
  unfold clip
  rw [max_eq_right (by linarith), min_eq_left hl]

theorem abs_clip_add_sub_le (x st lo hi : ℚ) (hst : 0 < st)
    (hl : lo ≤ x) (hh : x ≤ hi) : |clip (x + st) lo hi - x| ≤ st := by
  rw [abs_le]
  unfold clip
  rw [max_eq_left (by linarith)]
  have hup : min (x + st) hi ≤ x + st := min_le_left _ _
  have hlow : x ≤ min (x + st) hi := le_min (by linarith) hh
  constructor <;> linarith

theorem abs_clip_sub_sub_le (x st lo hi : ℚ) (hst : 0 < st)
    (hl : lo ≤ x) (hh : x ≤ hi) : |clip (x - st) lo hi - x| ≤ st := by
  rw [abs_le]
  unfold clip
  have hmax : max (x - st) lo ≤ x := max_le (by linarith) hl
  rw [min_eq_left (hmax.trans hh)]
  have : x - st ≤ max (x - st) lo := le_max_left _ _
  constructor <;> linarith

namespace MPPT_PO

theorem update_pinned_at_max (s : MPPT_PO) (c : ℚ)
    (hmm : s.min_voltage ≤ s.max_voltage) (hstep : 0 < s.step_size)
    (hvr : s.v_ref = s.max_voltage) (hvp : s.v_prev = s.max_voltage)
    (hpp : 0 < s.p_prev) (hdec : s.max_voltage * c < s.p_prev) :
    (s.update s.max_voltage c).1 =
      { s with
          p_prev := s.max_voltage * c
          history := ⟨s.history.v ++ [s.max_voltage], s.history.i ++ [c],
                      s.history.p ++ [s.max_voltage * c],
                      s.history.action ++ ["increase"]⟩ } := by
  have h := update_increase s s.max_voltage c (ne_of_gt hpp)
    (Or.inr ⟨by linarith, by rw [hvp]; simp⟩)
  rw [h]
  simp only [MPPT_PO.mk.injEq, and_true, true_and]
  refine ⟨hvp.symm, ?_⟩
  rw [hvr, clip_top _ _ _ hmm hstep]

theorem runUpdates_pinned_at_max (s : MPPT_PO) (currents : List ℚ)
    (hmm : s.min_voltage ≤ s.max_voltage) (hstep : 0 < s.step_size)
    (hvr : s.v_ref = s.max_voltage) (hvp : s.v_prev = s.max_voltage)
    (hpp : 0 < s.p_prev)
    (hch : (s.p_prev :: currents.map fun c => s.max_voltage * c).Chain'
      fun a b => b < a ∧ 0 < b) :
    ((s.runUpdates (currents.map fun c => (s.max_voltage, c))).1).v_ref
      = s.max_voltage := by
  induction currents generalizing s with
  | nil => simpa [runUpdates] using hvr
  | cons c cs ih =>
    rw [List.map_cons] at hch
    rw [List.chain'_cons] at hch
    obtain ⟨⟨hlt, hpos⟩, hch2⟩ := hch
    rw [List.map_cons]
    simp only [runUpdates]
    rw [update_pinned_at_max s c hmm hstep hvr hvp hpp hlt]
    exact ih _ hmm hstep hvr hvp hpos hch2

end MPPT_PO

/-! ## Claims -/

open MPPT_PO

/-- C1 (counterexample): in the spec scenario — `step_size=0.5, min_voltage=10,
`max_voltage=45`, calls `update(10,0)`, `update(11,0.4)`, `update(10.5,0.5)` —
the second call does not return `10.5` with action `"increase"`.  The first
sample has power `10 * 0 = 0`, so the stored previous power stays at the
sentinel value `0` and the second call is also taken in the initialization
branch: the returned values are `[10, 10, 10]` with actions
`["init", "init", "decrease"]`, not `[10, 10.5, 10]` with
`["init", "increase", "decrease"]`. -/
theorem c1_counterexample :
    ((MPPT_PO.init 0.5 45 10 0.2).runUpdates
        [(10, 0), (11, 0.4), (10.5, 0.5)]).2 = [10, 10, 10] ∧
    ((MPPT_PO.init 0.5 45 10 0.2).runUpdates
        [(10, 0), (11, 0.4), (10.5, 0.5)]).1.history.action
      = ["init", "init", "decrease"] ∧
    ¬ (((MPPT_PO.init 0.5 45 10 0.2).runUpdates
        [(10, 0), (11, 0.4), (10.5, 0.5)]).2 = [10, 10.5, 10] ∧
      ((MPPT_PO.init 0.5 45 10 0.2).runUpdates
        [(10, 0), (11, 0.4), (10.5, 0.5)]).1.history.action
      = ["init", "increase", "decrease"]) := by
  norm_num [MPPT_PO.runUpdates, MPPT_PO.update, MPPT_PO.init, clip]

/-- C1 (amended): with `step_size=0.5, min_voltage=10, max_voltage=45`, the
call sequence `update(10, 0)`, `update(11, 0.4)`, `update(10.5, 0.5)` returns
`10` with action `"init"`, then `10` with action `"init"` again (the zero-power
first sample leaves the sentinel at zero, so the second call re-initializes),
then `10.0` with action `"decrease"`. -/
theorem c1_amended_scenario :
    ((MPPT_PO.init 0.5 45 10 0.2).runUpdates
        [(10, 0), (11, 0.4), (10.5, 0.5)]).2 = [10, 10, 10] ∧
    ((MPPT_PO.init 0.5 45 10 0.2).runUpdates
        [(10, 0), (11, 0.4), (10.5, 0.5)]).1.history.action
      = ["init", "init", "decrease"] := by
  norm_num [MPPT_PO.runUpdates, MPPT_PO.update, MPPT_PO.init, clip]

/-- C2 (counterexample): the transition out of the initialization behavior is
not one-way.  With `step_size=0.5, min_voltage=10, max_voltage=45` and calls
`update(10,1)`, `update(10,0)`, `update(10,1)`, the third call (a call after
the first) records action `"init"` again: the zero-power second sample resets
the stored previous power to the sentinel `0`. -/
theorem c2_counterexample :
    ((MPPT_PO.init 0.5 45 10 0.2).runUpdates
        [(10, 1), (10, 0), (10, 1)]).1.history.action
      = ["init", "increase", "init"] := by
  norm_num [MPPT_PO.runUpdates, MPPT_PO.update, MPPT_PO.init, clip]

/-- C2 (amended): the initialization branch is keyed on the stored previous
power being zero, not on the call being the first: a zero-power sample
observed while tracking is itself processed by the perturb-and-observe rule
(its action is not `"init"`), but it resets the sentinel, so the immediately
following call is taken in the initialization branch again and records
`"init"`. -/
theorem c2_amended (s : MPPT_PO) (v i v2 i2 : ℚ)
    (h : s.p_prev ≠ 0) (hz : v * i = 0) :
    ∃ a, a ≠ "init" ∧
      ((s.update v i).1.update v2 i2).1.history.action
        = s.history.action ++ [a, "init"] := by
  by_cases hp : 0 < v * i - s.p_prev <;> by_cases hv : 0 < v - s.v_prev
  · refine ⟨"increase", by simp, ?_⟩
    rw [update_increase s v i h (Or.inl ⟨hp, hv⟩)]
    rw [update_init_branch _ v2 i2 (by simpa using hz)]
    simp
  · refine ⟨"decrease", by simp, ?_⟩
    rw [update_decrease s v i h (Or.inl ⟨hp, not_lt.mp hv⟩)]
    rw [update_init_branch _ v2 i2 (by simpa using hz)]
    simp
  · refine ⟨"decrease", by simp, ?_⟩
    rw [update_decrease s v i h (Or.inr ⟨not_lt.mp hp, hv⟩)]
    rw [update_init_branch _ v2 i2 (by simpa using hz)]
    simp
  · refine ⟨"increase", by simp, ?_⟩
    rw [update_increase s v i h (Or.inr ⟨not_lt.mp hp, not_lt.mp hv⟩)]
    rw [update_init_branch _ v2 i2 (by simpa using hz)]
    simp

/-- Witness for C2 (amended), at the reachable state `trackingState` with the
zero-power sample `update(10, 0)` followed by `update(10, 1)`. -/
theorem c2_amended_witness :
    trackingState.p_prev ≠ 0 ∧ (10 : ℚ) * 0 = 0 ∧
    ∃ a, a ≠ "init" ∧
      ((trackingState.update 10 0).1.update 10 1).1.history.action
        = trackingState.history.action ++ [a, "init"] :=
  ⟨by norm_num [trackingState], by norm_num,
    c2_amended trackingState 10 0 10 1 (by norm_num [trackingState]) (by norm_num)⟩

/-- C3: in the steady-state branch (`p_prev ≠ 0`), writing
`delta_power = v * i - p_prev` and `delta_voltage = v - v_prev`, the reference
before clamping changes by exactly `+step_size` (action `"increase"`) when the
two deltas have the sign pattern (>0, >0) or (≤0, ≤0), and by exactly
`-step_size` (action `"decrease"`) when the pattern is (>0, ≤0) or (≤0, >0). -/
theorem c3_decision_table (s : MPPT_PO) (v i : ℚ) (h : s.p_prev ≠ 0) :
    (((0 < v * i - s.p_prev ∧ 0 < v - s.v_prev) ∨
        (v * i - s.p_prev ≤ 0 ∧ v - s.v_prev ≤ 0)) →
      (s.update v i).1.v_ref
          = clip (s.v_ref + s.step_size) s.min_voltage s.max_voltage ∧
      (s.update v i).1.history.action = s.history.action ++ ["increase"]) ∧
    (((0 < v * i - s.p_prev ∧ v - s.v_prev ≤ 0) ∨
        (v * i - s.p_prev ≤ 0 ∧ 0 < v - s.v_prev)) →
      (s.update v i).1.v_ref
          = clip (s.v_ref - s.step_size) s.min_voltage s.max_voltage ∧
      (s.update v i).1.history.action = s.history.action ++ ["decrease"]) := by
  constructor
  · intro hcase
    rw [update_increase s v i h hcase]
    exact ⟨rfl, rfl⟩
  · intro hcase
    rw [update_decrease s v i h hcase]
    exact ⟨rfl, rfl⟩

/-- Witness for C3, at the reachable state `trackingState` with the
measurement `update(11, 1)` (power 11 > 10, voltage 11 > 10: an increase). -/
theorem c3_decision_table_witness :
    trackingState.p_prev ≠ 0 ∧
    ((((0 < (11 : ℚ) * 1 - trackingState.p_prev ∧
          0 < (11 : ℚ) - trackingState.v_prev) ∨
        ((11 : ℚ) * 1 - trackingState.p_prev ≤ 0 ∧
          (11 : ℚ) - trackingState.v_prev ≤ 0)) →
      (trackingState.update 11 1).1.v_ref
          = clip (trackingState.v_ref + trackingState.step_size)
              trackingState.min_voltage trackingState.max_voltage ∧
      (trackingState.update 11 1).1.history.action
          = trackingState.history.action ++ ["increase"]) ∧
    (((0 < (11 : ℚ) * 1 - trackingState.p_prev ∧
          (11 : ℚ) - trackingState.v_prev ≤ 0) ∨
        ((11 : ℚ) * 1 - trackingState.p_prev ≤ 0 ∧
          0 < (11 : ℚ) - trackingState.v_prev)) →
      (trackingState.update 11 1).1.v_ref
          = clip (trackingState.v_ref - trackingState.step_size)
              trackingState.min_voltage trackingState.max_voltage ∧
      (trackingState.update 11 1).1.history.action
          = trackingState.history.action ++ ["decrease"])) :=
  ⟨by norm_num [MPPT_PO.trackingState],
    c3_decision_table trackingState 11 1 (by norm_num [MPPT_PO.trackingState])⟩

/-- C5: for every configuration and every measurement pair, the first call to
`update` after construction returns the configured `min_voltage`, leaves the
reference voltage unchanged at `min_voltage`, and appends action `"init"`. -/
theorem c5_first_call (st mx mn t v i : ℚ) (hb : mn < mx) (hs : 0 < st) :
    ((MPPT_PO.init st mx mn t).update v i).2 = mn ∧
    ((MPPT_PO.init st mx mn t).update v i).1.v_ref = mn ∧
    ((MPPT_PO.init st mx mn t).update v i).1.history.action = ["init"] := by
  rw [update_init_branch _ v i rfl]
  exact ⟨rfl, rfl, rfl⟩

/-- Witness for C5, at the configuration `(0.5, 45, 10, 0.2)` with the first
measurement `update(33, 2)`. -/
theorem c5_first_call_witness :
    (10 : ℚ) < 45 ∧ (0 : ℚ) < 0.5 ∧
    ((MPPT_PO.init 0.5 45 10 0.2).update 33 2).2 = 10 ∧
    ((MPPT_PO.init 0.5 45 10 0.2).update 33 2).1.v_ref = 10 ∧
    ((MPPT_PO.init 0.5 45 10 0.2).update 33 2).1.history.action = ["init"] :=
  ⟨by norm_num, by norm_num, c5_first_call 0.5 45 10 0.2 33 2 (by norm_num) (by norm_num)⟩

/-- C6 (counterexample): an invalid configuration — negative `step_size`,
`min_voltage = 50 ≥ 10 = max_voltage`, zero `sample_time` — is not rejected:
construction succeeds, stores the values unchanged, and the resulting object
is usable (`update(20, 1)` runs and returns the stored reference `50`). -/
theorem c6_counterexample :
    MPPT_PO.initE (-1) 10 50 0 = Except.ok (MPPT_PO.init (-1) 10 50 0) ∧
    (MPPT_PO.init (-1) 10 50 0).step_size = -1 ∧
    (MPPT_PO.init (-1) 10 50 0).max_voltage = 10 ∧
    (MPPT_PO.init (-1) 10 50 0).min_voltage = 50 ∧
    (MPPT_PO.init (-1) 10 50 0).v_ref = 50 ∧
    ((MPPT_PO.init (-1) 10 50 0).update 20 1).2 = 50 ∧
    ((MPPT_PO.init (-1) 10 50 0).update 20 1).1.history.action = ["init"] := by
  norm_num [MPPT_PO.initE, MPPT_PO.init, MPPT_PO.update]

/-- C6 (amended): `__init__` performs no validation and never fails: every
configuration, including one with `min_voltage ≥ max_voltage` or non-positive
`step_size`/`sample_time`, is accepted, its values are stored unchanged, the
reference is seeded to `min_voltage` and the history starts empty. -/
theorem c6_amended (st mx mn t : ℚ) :
    MPPT_PO.initE st mx mn t = Except.ok (MPPT_PO.init st mx mn t) ∧
    (MPPT_PO.init st mx mn t).step_size = st ∧
    (MPPT_PO.init st mx mn t).max_voltage = mx ∧
    (MPPT_PO.init st mx mn t).min_voltage = mn ∧
    (MPPT_PO.init st mx mn t).sample_time = t ∧
    (MPPT_PO.init st mx mn t).v_ref = mn ∧
    (MPPT_PO.init st mx mn t).history = ⟨[], [], [], []⟩ :=
  ⟨rfl, rfl, rfl, rfl, rfl, rfl, rfl⟩

/-- C4: for every valid configuration and every finite sequence of `update`
calls with arbitrary rational measurements, the value returned by each call
lies in `[min_voltage, max_voltage]`, and the reference voltage after the
whole sequence (hence, since the input sequence is arbitrary, after every
prefix, i.e. after each call) lies in `[min_voltage, max_voltage]`. -/
theorem c4_bounds_invariant (st mx mn t : ℚ) (hb : mn < mx) (hs : 0 < st)
    (inputs : List (ℚ × ℚ)) :
    (mn ≤ ((MPPT_PO.init st mx mn t).runUpdates inputs).1.v_ref ∧
      ((MPPT_PO.init st mx mn t).runUpdates inputs).1.v_ref ≤ mx) ∧
    ∀ o ∈ ((MPPT_PO.init st mx mn t).runUpdates inputs).2, mn ≤ o ∧ o ≤ mx :=
  runUpdates_bounds (MPPT_PO.init st mx mn t) inputs (le_refl mn) (le_of_lt hb)

/-- Witness for C4, at the configuration `(0.5, 45, 10, 0.2)` with the input
sequence `update(10, 1)`, `update(11, 1)`. -/
theorem c4_bounds_invariant_witness :
    (10 : ℚ) < 45 ∧ (0 : ℚ) < 0.5 ∧
    ((10 ≤ ((MPPT_PO.init 0.5 45 10 0.2).runUpdates [(10, 1), (11, 1)]).1.v_ref ∧
      ((MPPT_PO.init 0.5 45 10 0.2).runUpdates [(10, 1), (11, 1)]).1.v_ref ≤ 45) ∧
    ∀ o ∈ ((MPPT_PO.init 0.5 45 10 0.2).runUpdates [(10, 1), (11, 1)]).2,
      10 ≤ o ∧ o ≤ 45) :=
  ⟨by norm_num, by norm_num,
    c4_bounds_invariant 0.5 45 10 0.2 (by norm_num) (by norm_num) [(10, 1), (11, 1)]⟩

/-- C7: after a sequence of `update` calls from construction the four history
lists `v`, `i`, `p`, `action` all have length equal to the number of calls
made; moreover every single `update` call, from any state, appends exactly one
entry to each of the four lists (history is append-only, one entry per call,
in call order). -/
theorem c7_history_lengths (st mx mn t : ℚ) (inputs : List (ℚ × ℚ)) :
    (((MPPT_PO.init st mx mn t).runUpdates inputs).1.history.v.length
        = inputs.length ∧
      ((MPPT_PO.init st mx mn t).runUpdates inputs).1.history.i.length
        = inputs.length ∧
      ((MPPT_PO.init st mx mn t).runUpdates inputs).1.history.p.length
        = inputs.length ∧
      ((MPPT_PO.init st mx mn t).runUpdates inputs).1.history.action.length
        = inputs.length) ∧
    ∀ s : MPPT_PO, ∀ v i : ℚ,
      (s.update v i).1.history.v = s.history.v ++ [v] ∧
      (s.update v i).1.history.i = s.history.i ++ [i] ∧
      (s.update v i).1.history.p = s.history.p ++ [v * i] ∧
      ∃ a, (s.update v i).1.history.action = s.history.action ++ [a] := by
  constructor
  · have h := runUpdates_history_len (MPPT_PO.init st mx mn t) inputs
    simpa [MPPT_PO.init] using h
  · intro s v i
    obtain ⟨h1, h2, h3, h4⟩ := update_history s v i
    refine ⟨h1, h2, h3, ?_⟩
    rcases h4 with h | h | h
    exacts [⟨"init", h⟩, ⟨"increase", h⟩, ⟨"decrease", h⟩]

/-- C8: saturation at the voltage bounds is idempotent.  In the steady-state
branch, if the reference already sits at `max_voltage` and the decision is an
increase, the reference stays exactly `max_voltage`; if it sits at
`min_voltage` and the decision is a decrease, it stays exactly `min_voltage`;
and repeatedly feeding strictly decreasing positive power with the measured
voltage tracking the reference pinned at `max_voltage` leaves the reference
exactly at `max_voltage` for the whole run. -/
theorem c8_saturation (s : MPPT_PO) (v i : ℚ) (currents : List ℚ)
    (hmm : s.min_voltage ≤ s.max_voltage) (hstep : 0 < s.step_size) :
    (s.p_prev ≠ 0 → s.v_ref = s.max_voltage →
      ((0 < v * i - s.p_prev ∧ 0 < v - s.v_prev) ∨
        (v * i - s.p_prev ≤ 0 ∧ v - s.v_prev ≤ 0)) →
      (s.update v i).1.v_ref = s.max_voltage) ∧
    (s.p_prev ≠ 0 → s.v_ref = s.min_voltage →
      ((0 < v * i - s.p_prev ∧ v - s.v_prev ≤ 0) ∨
        (v * i - s.p_prev ≤ 0 ∧ 0 < v - s.v_prev)) →
      (s.update v i).1.v_ref = s.min_voltage) ∧
    (0 < s.p_prev → s.v_ref = s.max_voltage → s.v_prev = s.max_voltage →
      (s.p_prev :: currents.map fun c => s.max_voltage * c).Chain'
        (fun a b => b < a ∧ 0 < b) →
      ((s.runUpdates (currents.map fun c => (s.max_voltage, c))).1).v_ref
        = s.max_voltage) := by
  refine ⟨?_, ?_, ?_⟩
  · intro h hvr hcase
    rw [update_increase s v i h hcase]
    show clip (s.v_ref + s.step_size) _ _ = _
    rw [hvr, clip_top _ _ _ hmm hstep]
  · intro h hvr hcase
    rw [update_decrease s v i h hcase]
    show clip (s.v_ref - s.step_size) _ _ = _
    rw [hvr, clip_bot _ _ _ hmm hstep]
  · intro hpp hvr hvp hch
    exact runUpdates_pinned_at_max s currents hmm hstep hvr hvp hpp hch

/-- Witness for C8, at the state `pinnedState` (reference pinned at the upper
bound `45` with previous power `20`), single measurement `update(45, 0.4)` and
the decreasing-power current sequence `[0.4, 0.2]` (powers `18 > 9`). -/
theorem c8_saturation_witness :
    pinnedState.min_voltage ≤ pinnedState.max_voltage ∧
    (0 : ℚ) < pinnedState.step_size ∧
    ((pinnedState.p_prev ≠ 0 → pinnedState.v_ref = pinnedState.max_voltage →
      ((0 < (45 : ℚ) * 0.4 - pinnedState.p_prev ∧
          0 < (45 : ℚ) - pinnedState.v_prev) ∨
        ((45 : ℚ) * 0.4 - pinnedState.p_prev ≤ 0 ∧
          (45 : ℚ) - pinnedState.v_prev ≤ 0)) →
      (pinnedState.update 45 0.4).1.v_ref = pinnedState.max_voltage) ∧
    (pinnedState.p_prev ≠ 0 → pinnedState.v_ref = pinnedState.min_voltage →
      ((0 < (45 : ℚ) * 0.4 - pinnedState.p_prev ∧
          (45 : ℚ) - pinnedState.v_prev ≤ 0) ∨
        ((45 : ℚ) * 0.4 - pinnedState.p_prev ≤ 0 ∧
          0 < (45 : ℚ) - pinnedState.v_prev)) →
      (pinnedState.update 45 0.4).1.v_ref = pinnedState.min_voltage) ∧
    (0 < pinnedState.p_prev → pinnedState.v_ref = pinnedState.max_voltage →
      pinnedState.v_prev = pinnedState.max_voltage →
      (pinnedState.p_prev ::
          [(0.4 : ℚ), 0.2].map fun c => pinnedState.max_voltage * c).Chain'
        (fun a b => b < a ∧ 0 < b) →
      ((pinnedState.runUpdates
          ([(0.4 : ℚ), 0.2].map fun c => (pinnedState.max_voltage, c))).1).v_ref
        = pinnedState.max_voltage)) :=
  ⟨by norm_num [MPPT_PO.pinnedState], by norm_num [MPPT_PO.pinnedState],
    c8_saturation pinnedState 45 0.4 [0.4, 0.2]
      (by norm_num [MPPT_PO.pinnedState]) (by norm_num [MPPT_PO.pinnedState])⟩

/-- C9: `update` cannot fail (its `Except`-valued model always returns `ok`
with the value of the pure function of the prior state and the inputs), it
leaves the configuration fields untouched, and its only effect beyond the
`v_prev`/`p_prev`/`v_ref` state fields is appending exactly one entry to each
history list, the action being one of `"init"`, `"increase"`, `"decrease"`. -/
theorem c9_update_total_and_pure (s : MPPT_PO) (v i : ℚ) :
    s.updateE v i = Except.ok (s.update v i) ∧
    (s.update v i).1.step_size = s.step_size ∧
    (s.update v i).1.max_voltage = s.max_voltage ∧
    (s.update v i).1.min_voltage = s.min_voltage ∧
    (s.update v i).1.sample_time = s.sample_time ∧
    (s.update v i).1.history.v = s.history.v ++ [v] ∧
    (s.update v i).1.history.i = s.history.i ++ [i] ∧
    (s.update v i).1.history.p = s.history.p ++ [v * i] ∧
    ∃ a, (a = "init" ∨ a = "increase" ∨ a = "decrease") ∧
      (s.update v i).1.history.action = s.history.action ++ [a] := by
  obtain ⟨k1, k2, k3, k4⟩ := update_config s v i
  obtain ⟨h1, h2, h3, h4⟩ := update_history s v i
  refine ⟨rfl, k1, k2, k3, k4, h1, h2, h3, ?_⟩
  rcases h4 with h | h | h
  exacts [⟨"init", Or.inl rfl, h⟩, ⟨"increase", Or.inr (Or.inl rfl), h⟩,
    ⟨"decrease", Or.inr (Or.inr rfl), h⟩]

/-- C10: bounded per-call slew.  Given a positive step size and a reference
currently within the configured bounds, one `update` call moves the reference
by at most `step_size` in absolute value, and a call taken in the first-sample
branch does not move it at all. -/
theorem c10_bounded_slew (s : MPPT_PO) (v i : ℚ) (hs : 0 < s.step_size)
    (h1 : s.min_voltage ≤ s.v_ref) (h2 : s.v_ref ≤ s.max_voltage) :
    |(s.update v i).1.v_ref - s.v_ref| ≤ s.step_size ∧
    (s.p_prev = 0 → (s.update v i).1.v_ref = s.v_ref) := by
  constructor
  · by_cases h : s.p_prev = 0
    · rw [update_init_branch s v i h]
      simpa using hs.le
    · by_cases hp : 0 < v * i - s.p_prev <;> by_cases hv : 0 < v - s.v_prev
      · rw [update_increase s v i h (Or.inl ⟨hp, hv⟩)]
        exact abs_clip_add_sub_le _ _ _ _ hs h1 h2
      · rw [update_decrease s v i h (Or.inl ⟨hp, not_lt.mp hv⟩)]
        exact abs_clip_sub_sub_le _ _ _ _ hs h1 h2
      · rw [update_decrease s v i h (Or.inr ⟨not_lt.mp hp, hv⟩)]
        exact abs_clip_sub_sub_le _ _ _ _ hs h1 h2
      · rw [update_increase s v i h (Or.inr ⟨not_lt.mp hp, not_lt.mp hv⟩)]
        exact abs_clip_add_sub_le _ _ _ _ hs h1 h2
  · intro h
    rw [update_init_branch s v i h]

/-- Witness for C10, at the reachable state `trackingState` with the
measurement `update(11, 1)`. -/
theorem c10_bounded_slew_witness :
    (0 : ℚ) < trackingState.step_size ∧
    trackingState.min_voltage ≤ trackingState.v_ref ∧
    trackingState.v_ref ≤ trackingState.max_voltage ∧
    (|(trackingState.update 11 1).1.v_ref - trackingState.v_ref|
        ≤ trackingState.step_size ∧
      (trackingState.p_prev = 0 →
        (trackingState.update 11 1).1.v_ref = trackingState.v_ref)) :=
  ⟨by norm_num [MPPT_PO.trackingState], by norm_num [MPPT_PO.trackingState],
    by norm_num [MPPT_PO.trackingState],
    c10_bounded_slew trackingState 11 1 (by norm_num [MPPT_PO.trackingState])
      (by norm_num [MPPT_PO.trackingState]) (by norm_num [MPPT_PO.trackingState])⟩

end MPPT
